import Mathlib

/-!
Verification development for the natural-time-js library.

The core under study is the NaturalDate engine (src/core/NaturalDate.ts):
it converts a Unix timestamp (milliseconds) and a longitude into a natural
calendar position.  JavaScript numbers are modelled with exact arithmetic:
timestamps as integers of type Int (milliseconds since the Unix epoch) and
fractional quantities (longitude, degrees of time, fractional day counts)
as rationals.  The external astronomical ephemeris (astronomy-engine) is an
oracle; the December-solstice lookup used by the engine is therefore a
function parameter `solstice : Int -> Int` mapping a Gregorian year to the
timestamp of that year's December solstice.
-/

namespace NaturalTime

/-- Number of milliseconds in a day (NaturalDate.MILLISECONDS_PER_DAY). -/
def MILLISECONDS_PER_DAY : ℤ := 86400000

/-- Days from the civil epoch 1970-01-01 for a proleptic Gregorian date;
`m` is 1-based.  The day `d` enters linearly, so out-of-range day values
overflow into adjacent months exactly as JavaScript Date.UTC normalises
them.  Divisors are positive throughout, so the Euclidean `/` and `%` of
Int coincide with the floor division the algorithm requires.
(Howard Hinnant's days-from-civil algorithm.) -/
def daysFromCivil (y m d : ℤ) : ℤ :=
  let yy : ℤ := if m ≤ 2 then y - 1 else y
  let era : ℤ := yy / 400
  let yoe : ℤ := yy - era * 400
  let mp : ℤ := (m + 9) % 12
  let doy : ℤ := (153 * mp + 2) / 5 + d - 1
  let doe : ℤ := yoe * 365 + yoe / 4 - yoe / 100 + doy
  era * 146097 + doe - 719468

/-- A proleptic Gregorian calendar date (month is 1-based). -/
structure Civil where
  year : ℤ
  month : ℤ
  day : ℤ
  deriving DecidableEq, Repr

/-- Civil date from a day count since 1970-01-01 (Hinnant's civil-from-days). -/
def civilFromDays (z0 : ℤ) : Civil :=
  let z : ℤ := z0 + 719468
  let era : ℤ := z / 146097
  let doe : ℤ := z - era * 146097
  let yoe : ℤ := (doe - doe / 1460 + doe / 36524 - doe / 146096) / 365
  let y : ℤ := yoe + era * 400
  let doy : ℤ := doe - (365 * yoe + yoe / 4 - yoe / 100)
  let mp : ℤ := (5 * doy + 2) / 153
  let d : ℤ := doy - (153 * mp + 2) / 5 + 1
  let m : ℤ := mp + (if mp < 10 then 3 else -9)
  { year := if m ≤ 2 then y + 1 else y, month := m, day := d }

/-- JavaScript `Date.UTC(y, m, d, h, mi, s)` in milliseconds; `m` is 0-based
as in JavaScript. -/
def dateUTC (y m d h mi s : ℤ) : ℤ :=
  daysFromCivil y (m + 1) d * MILLISECONDS_PER_DAY + h * 3600000 + mi * 60000 + s * 1000

/-- JavaScript `Date.prototype.getUTCFullYear` on a millisecond timestamp. -/
def getUTCFullYear (ts : ℤ) : ℤ :=
  (civilFromDays (ts / MILLISECONDS_PER_DAY)).year

/-- JavaScript `getUTCMonth` (0-based month). -/
def getUTCMonth (ts : ℤ) : ℤ :=
  (civilFromDays (ts / MILLISECONDS_PER_DAY)).month - 1

/-- JavaScript `getUTCDate` (day of month, 1-based). -/
def getUTCDate (ts : ℤ) : ℤ :=
  (civilFromDays (ts / MILLISECONDS_PER_DAY)).day

/-- JavaScript `getUTCHours`. -/
def getUTCHours (ts : ℤ) : ℤ :=
  ts % MILLISECONDS_PER_DAY / 3600000

/-- JavaScript `parseInt(String(q))` on a finite number: truncation toward
zero. -/
def jsTrunc (q : ℚ) : ℤ :=
  if q < 0 then ⌈q⌉ else ⌊q⌋

/-- The noon-normalisation applied to a solstice timestamp in
`calculateYearContext`: `Date.UTC(getUTCFullYear, getUTCMonth,
getUTCDate + (getUTCHours >= 12 ? 1 : 0), 12, 0, 0)`. -/
def dateNormNoon (ts : ℤ) : ℤ :=
  dateUTC (getUTCFullYear ts) (getUTCMonth ts)
    (getUTCDate ts + (if 12 ≤ getUTCHours ts then 1 else 0)) 12 0 0

/-- Year context (src/core/NaturalDate.ts, interface YearContext):
start of the natural year in milliseconds and its duration in days. -/
structure YearContext where
  start : ℤ
  duration : ℚ
  deriving DecidableEq, Repr

/-- `calculateYearContext` (src/core/NaturalDate.ts lines 37-68) without the
memoisation map: the cache is a pure memoisation of this function, so the
value computed is unchanged.  `solstice` is the oracle for
`Seasons(year).dec_solstice.date`. -/
def calculateYearContext (solstice : ℤ → ℤ) (artificialYear : ℤ) (longitude : ℚ) : YearContext :=
  { start := jsTrunc ((dateNormNoon (solstice artificialYear) : ℚ) +
      (-longitude + 180) * (MILLISECONDS_PER_DAY : ℚ) / 360),
    duration := ((dateNormNoon (solstice (artificialYear + 1)) : ℚ) -
      (dateNormNoon (solstice artificialYear) : ℚ)) / (MILLISECONDS_PER_DAY : ℚ) }

/-- End of the artificial time era: `Date.UTC(2012, 11, 21, 12, 0, 0)`. -/
def END_OF_ARTIFICIAL_TIME : ℤ := dateUTC 2012 11 21 12 0 0

/-- The resolve-then-correct year-context logic of the constructor
(src/core/NaturalDate.ts lines 173-178): first guess the context of the
previous Gregorian year, then advance one natural year when the instant
falls at or beyond that context's end. -/
def resolveContext (solstice : ℤ → ℤ) (unixTime : ℤ) (longitude : ℚ) : YearContext :=
  if (calculateYearContext solstice (getUTCFullYear unixTime - 1) longitude).duration *
        (MILLISECONDS_PER_DAY : ℚ) ≤
      (unixTime : ℚ) -
        ((calculateYearContext solstice (getUTCFullYear unixTime - 1) longitude).start : ℚ) then
    calculateYearContext solstice (getUTCFullYear unixTime) longitude
  else calculateYearContext solstice (getUTCFullYear unixTime - 1) longitude

/-- The local variable `timeSinceLocalYearStart` of the constructor:
fractional days elapsed since the resolved year start. -/
def timeSinceLocalYearStart (solstice : ℤ → ℤ) (unixTime : ℤ) (longitude : ℚ) : ℚ :=
  ((unixTime : ℚ) - ((resolveContext solstice unixTime longitude).start : ℚ)) /
    (MILLISECONDS_PER_DAY : ℚ)

/-- The NaturalDate value object (src/core/NaturalDate.ts). -/
structure NaturalDate where
  unixTime : ℤ
  longitude : ℚ
  year : ℤ
  moon : ℤ
  week : ℤ
  weekOfMoon : ℤ
  day : ℤ
  dayOfYear : ℤ
  dayOfMoon : ℤ
  dayOfWeek : ℤ
  isRainbowDay : Bool
  time : ℚ
  yearStart : ℤ
  yearDuration : ℚ
  nadir : ℤ
  deriving DecidableEq, Repr

/-- The field computations of the NaturalDate constructor
(src/core/NaturalDate.ts lines 172-210) for an already validated finite
instant and an already coerced numeric longitude.  JavaScript `%` on the
results of `Math.floor` is truncated remainder, hence `Int.tmod`. -/
def mkNaturalDate (solstice : ℤ → ℤ) (unixTime : ℤ) (longitude : ℚ) : NaturalDate :=
  { unixTime := unixTime
    longitude := longitude
    year := getUTCFullYear (resolveContext solstice unixTime longitude).start -
      getUTCFullYear END_OF_ARTIFICIAL_TIME + 1
    moon := ⌊timeSinceLocalYearStart solstice unixTime longitude / 28⌋ + 1
    week := ⌊timeSinceLocalYearStart solstice unixTime longitude / 7⌋ + 1
    weekOfMoon := Int.tmod ⌊timeSinceLocalYearStart solstice unixTime longitude / 7⌋ 4 + 1
    day := ⌊((unixTime : ℚ) - ((END_OF_ARTIFICIAL_TIME : ℚ) +
      (-longitude + 180) * (MILLISECONDS_PER_DAY : ℚ) / 360)) / (MILLISECONDS_PER_DAY : ℚ)⌋
    dayOfYear := ⌊timeSinceLocalYearStart solstice unixTime longitude⌋ + 1
    dayOfMoon := Int.tmod ⌊timeSinceLocalYearStart solstice unixTime longitude⌋ 28 + 1
    dayOfWeek := Int.tmod ⌊timeSinceLocalYearStart solstice unixTime longitude⌋ 7 + 1
    isRainbowDay := decide (13 * 28 < ⌊timeSinceLocalYearStart solstice unixTime longitude⌋ + 1)
    time := ((unixTime : ℚ) -
      (((resolveContext solstice unixTime longitude).start +
        ⌊timeSinceLocalYearStart solstice unixTime longitude⌋ * MILLISECONDS_PER_DAY : ℤ) : ℚ)) *
      360 / (MILLISECONDS_PER_DAY : ℚ)
    yearStart := (resolveContext solstice unixTime longitude).start
    yearDuration := (resolveContext solstice unixTime longitude).duration
    nadir := (resolveContext solstice unixTime longitude).start +
      ⌊timeSinceLocalYearStart solstice unixTime longitude⌋ * MILLISECONDS_PER_DAY }

/-- `NaturalDate.getTimeOfEvent` (src/core/NaturalDate.ts lines 235-244).
The JavaScript sentinel `false` for an event outside the natural day is
modelled as `none`. -/
def getTimeOfEvent (d : NaturalDate) (eventTime : ℤ) : Option ℚ :=
  if eventTime < d.nadir ∨ d.nadir + MILLISECONDS_PER_DAY < eventTime then none
  else some (((eventTime : ℚ) - (d.nadir : ℚ)) * (360 / (MILLISECONDS_PER_DAY : ℚ)))

/-- A JavaScript number as it can reach the longitude parameter: NaN, the
two infinities, or a finite value. -/
inductive JSNum where
  | nan
  | posInf
  | negInf
  | fin (q : ℚ)
  deriving DecidableEq, Repr

/-- A JavaScript value passed as the longitude argument: `undefined` (the
parameter was omitted), a number, or a value of any other type. -/
inductive JSLongitude where
  | undef
  | num (x : JSNum)
  | nonNumber
  deriving DecidableEq, Repr

/-- JavaScript comparison `x < c` for a number `x` and finite constant `c`:
false when `x` is NaN. -/
def jsNumLt (x : JSNum) (c : ℚ) : Bool :=
  match x with
  | .nan => false
  | .posInf => false
  | .negInf => true
  | .fin q => decide (q < c)

/-- JavaScript comparison `x > c` for a number `x` and finite constant `c`:
false when `x` is NaN. -/
def jsNumGt (x : JSNum) (c : ℚ) : Bool :=
  match x with
  | .nan => false
  | .posInf => true
  | .negInf => false
  | .fin q => decide (c < q)

/-- The longitude validation guard of the constructor
(src/core/NaturalDate.ts line 160):
`longitude !== undefined && (typeof longitude !== number ||
longitude < -180 || longitude > 180)`. -/
def longitudeCheckThrows (lng : JSLongitude) : Bool :=
  match lng with
  | .undef => false
  | .nonNumber => true
  | .num x => jsNumLt x (-180) || jsNumGt x 180

/-- The coercion `this.longitude = longitude || 0`
(src/core/NaturalDate.ts line 170) restricted to the values that survive
the guard: `undefined` and `NaN` are falsy and become `0`; a finite number
is kept (`0 || 0` is `0`). -/
def coerceLongitude (lng : JSLongitude) : ℚ :=
  match lng with
  | .num (.fin q) => q
  | _ => 0

/-- The constructor including its longitude validation
(src/core/NaturalDate.ts lines 158-214), for an instant that is already a
finite millisecond timestamp (the date-argument coercion and its own
validation are orthogonal to the claims studied here). -/
def NaturalDateJS (solstice : ℤ → ℤ) (unixTime : ℤ) (lng : JSLongitude) :
    Except String NaturalDate :=
  if longitudeCheckThrows lng then
    Except.error "Longitude must be between -180 and +180"
  else
    Except.ok (mkNaturalDate solstice unixTime (coerceLongitude lng))

/-! ### Validators (src/utils/validators.js)

JavaScript type checks (`typeof`, `Number.isFinite`, `instanceof`) are
trivially true in this typed model; the range conditions are kept. -/

/-- `isValidLatitude`. -/
def isValidLatitude (latitude : ℚ) : Bool :=
  decide (-90 ≤ latitude) && decide (latitude ≤ 90)

/-- `isValidLongitude`. -/
def isValidLongitude (longitude : ℚ) : Bool :=
  decide (-180 ≤ longitude) && decide (longitude ≤ 180)

/-- `isValidAngle`. -/
def isValidAngle (angle : ℚ) : Bool :=
  decide (0 ≤ angle) && decide (angle ≤ 360)

/-- `isValidTimestamp`. -/
def isValidTimestamp (timestamp : ℤ) : Bool :=
  decide (0 < timestamp)

/-- `isValidNaturalDate`: structural validation of a NaturalDate at the
celestial-module boundary. -/
def isValidNaturalDate (d : NaturalDate) : Bool :=
  isValidTimestamp d.unixTime && isValidLongitude d.longitude &&
  (decide (1 ≤ d.moon) && decide (d.moon ≤ 14)) &&
  (decide (1 ≤ d.week) && decide (d.week ≤ 53)) &&
  (decide (1 ≤ d.weekOfMoon) && decide (d.weekOfMoon ≤ 4)) &&
  (decide (1 ≤ d.dayOfMoon) && decide (d.dayOfMoon ≤ 28)) &&
  (decide (1 ≤ d.dayOfWeek) && decide (d.dayOfWeek ≤ 7)) &&
  (decide (1 ≤ d.dayOfYear) && decide ((d.dayOfYear : ℚ) ≤ d.yearDuration)) &&
  isValidAngle d.time && isValidTimestamp d.yearStart && isValidTimestamp d.nadir

/-! ### Celestial module (src/astronomy/celestial.ts and legacy context.js)

The astronomy-engine searches are modelled as oracle function parameters.
Rise-set and altitude searches return `none` where the engine returns
`null` (no such event in the window); the point-evaluation functions used
by the moon-position operation are modelled as fallible (`Except`), which
is the failure mode the error-handling claims exercise.  `Math.cos` of a
degree argument converted to radians is modelled by the abstract function
`cosDeg`. -/

/-- Celestial body selector of astronomy-engine. -/
inductive Body where
  | sun
  | moon
  deriving DecidableEq, Repr

/-- Equatorial coordinates returned by `Equator`. -/
structure EquatorCoords where
  ra : ℚ
  dec : ℚ
  deriving DecidableEq, Repr

/-- The astronomical oracle: `Seasons` solstices, `SearchRiseSet`,
`SearchAltitude`, `Equator`, `Horizon` altitude, `MoonPhase`, and the
host `Math.cos` composed with the degree-to-radian conversion. -/
structure Oracle where
  decSolstice : ℤ → ℤ
  junSolstice : ℤ → ℤ
  searchRiseSet : Body → ℚ → ℚ → ℤ → ℤ → ℤ → Option ℤ
  searchAltitude : Body → ℚ → ℚ → ℤ → ℤ → ℤ → ℚ → Option ℤ
  equator : Body → ℤ → ℚ → ℚ → Except String EquatorCoords
  horizonAltitude : ℤ → ℚ → ℚ → ℚ → ℚ → Except String ℚ
  moonPhase : ℤ → Except String ℚ
  cosDeg : ℚ → ℚ

/-- Sun events record (interface SunEvents). -/
structure SunEvents where
  sunrise : ℚ
  sunset : ℚ
  nightStart : ℚ
  nightEnd : ℚ
  morningGoldenHour : ℚ
  eveningGoldenHour : ℚ
  deriving DecidableEq, Repr

/-- `isSummerSeason` (src/astronomy/celestial.ts lines 115-120). -/
def isSummerSeason (dayOfYear : ℤ) (latitude : ℚ) : Bool :=
  if 0 ≤ latitude then decide (91 ≤ dayOfYear) && decide (dayOfYear ≤ 273)
  else decide (dayOfYear ≤ 91) || decide (273 ≤ dayOfYear)

/-- JavaScript `x || 0` applied to a `getTimeOfEvent` result (`false` or a
number): `false` and `0` both give `0`, any other number is kept. -/
def jsOrZero (x : Option ℚ) : ℚ :=
  match x with
  | none => 0
  | some q => q

/-- The `getEventTime` helper of `NaturalSunEvents`
(src/astronomy/celestial.ts lines 180-185): seasonal fallback when the
search found no event, otherwise the projection with `|| 0`. -/
def getEventTime (d : NaturalDate) (isSummer : Bool) (searchResult : Option ℤ)
    (isSummerDefault : Bool) : ℚ :=
  match searchResult with
  | none => if isSummer then (if isSummerDefault then 360 else 0) else 180
  | some ev => jsOrZero (getTimeOfEvent d ev)

/-- `NaturalSunEvents` (src/astronomy/celestial.ts lines 158-202) without
the memoisation map (pure memoisation of this function).  Validation
errors are raised before any oracle call. -/
def NaturalSunEvents (o : Oracle) (d : NaturalDate) (latitude : ℚ) :
    Except String SunEvents :=
  if isValidNaturalDate d = false then Except.error "Invalid naturalDate" else
  if isValidLatitude latitude = false then Except.error "Invalid latitude" else
  let isSummer := isSummerSeason d.dayOfYear latitude
  Except.ok
    { sunrise := getEventTime d isSummer (o.searchRiseSet .sun latitude d.longitude 1 d.nadir 1) false
      sunset := getEventTime d isSummer (o.searchRiseSet .sun latitude d.longitude (-1) d.nadir 1) true
      nightStart := getEventTime d isSummer (o.searchAltitude .sun latitude d.longitude (-1) d.nadir 2 (-12)) true
      nightEnd := getEventTime d isSummer (o.searchAltitude .sun latitude d.longitude 1 d.nadir 2 (-12)) false
      morningGoldenHour := getEventTime d isSummer (o.searchAltitude .sun latitude d.longitude 1 d.nadir 2 6) false
      eveningGoldenHour := getEventTime d isSummer (o.searchAltitude .sun latitude d.longitude (-1) d.nadir 2 6) true }

/-- JavaScript `if (!x) x = fallback` applied to a `getTimeOfEvent` result:
both the sentinel `false` and a projection of exactly `0` are falsy and are
replaced by the fallback. -/
def withFallback (x : Option ℚ) (fallback : ℚ) : ℚ :=
  match x with
  | none => fallback
  | some q => if q = 0 then fallback else q

/-- `NaturalSunEvents` of the legacy root module (context.js lines 39-80)
without the memoisation map.  A `null` search result flows through
`new Date(null).getTime() = 0` inside `getTimeOfEvent`, hence `Option.getD 0`;
each event is then substituted by its seasonal fallback when falsy. -/
def NaturalSunEventsJs (o : Oracle) (d : NaturalDate) (latitude : ℚ) : SunEvents :=
  let isSummer :=
    (decide (0 ≤ latitude) && decide (91 ≤ d.dayOfYear) && decide (d.dayOfYear ≤ 273)) ||
    (decide (latitude ≤ 0) && (decide (d.dayOfYear ≤ 91) || decide (273 ≤ d.dayOfYear)))
  { sunrise := withFallback
      (getTimeOfEvent d ((o.searchRiseSet .sun latitude d.longitude 1 d.nadir 1).getD 0))
      (if isSummer then 0 else 180)
    sunset := withFallback
      (getTimeOfEvent d ((o.searchRiseSet .sun latitude d.longitude (-1) d.nadir 1).getD 0))
      (if isSummer then 360 else 180)
    nightStart := withFallback
      (getTimeOfEvent d ((o.searchAltitude .sun latitude d.longitude (-1) d.nadir 2 (-12)).getD 0))
      (if isSummer then 360 else 180)
    nightEnd := withFallback
      (getTimeOfEvent d ((o.searchAltitude .sun latitude d.longitude 1 d.nadir 2 (-12)).getD 0))
      (if isSummer then 0 else 180)
    morningGoldenHour := withFallback
      (getTimeOfEvent d ((o.searchAltitude .sun latitude d.longitude 1 d.nadir 2 6).getD 0))
      (if isSummer then 0 else 180)
    eveningGoldenHour := withFallback
      (getTimeOfEvent d ((o.searchAltitude .sun latitude d.longitude (-1) d.nadir 2 6).getD 0))
      (if isSummer then 360 else 180) }

/-- Moon position record (interface MoonPosition). -/
structure MoonPosition where
  altitude : ℚ
  phase : ℚ
  illumination : ℚ
  deriving DecidableEq, Repr

/-- `NaturalMoonPosition` (src/astronomy/celestial.ts lines 207-230):
validation, then the oracle chain; the catch block logs and re-throws, so
an oracle failure propagates unchanged. -/
def NaturalMoonPosition (o : Oracle) (d : NaturalDate) (latitude : ℚ) :
    Except String MoonPosition :=
  if isValidNaturalDate d = false then Except.error "Invalid naturalDate" else
  if isValidLatitude latitude = false then Except.error "Invalid latitude" else
  match (do
    let moon ← o.equator .moon d.unixTime latitude d.longitude
    let altitude ← o.horizonAltitude d.unixTime latitude d.longitude moon.ra moon.dec
    let phase ← o.moonPhase d.unixTime
    let phaseAgain ← o.moonPhase d.unixTime
    pure (MoonPosition.mk (max altitude 0) phase (o.cosDeg phaseAgain)) :
      Except String MoonPosition) with
  | Except.ok v => Except.ok v
  | Except.error e => Except.error e

/-- Mustaches range record (interface MustachesRange). -/
structure MustachesRangeResult where
  winterSunrise : ℚ
  winterSunset : ℚ
  summerSunrise : ℚ
  summerSunset : ℚ
  averageMustacheAngle : ℚ
  deriving DecidableEq, Repr

/-- The cache key of `MustachesRange`
(`MUSTACHES_(currentYear)_(latitude)` in src/astronomy/celestial.ts line
288), as the pair of values interpolated into the string. -/
def mustachesCacheKey (d : NaturalDate) (latitude : ℚ) : ℤ × ℚ :=
  (getUTCFullYear d.unixTime, latitude)

/-- `MustachesRange` (src/astronomy/celestial.ts lines 278-336) without the
memoisation map.  The host time zone is modelled as UTC, so
`new Date(unixTime).getFullYear()` is `getUTCFullYear`.  The solstice-day
NaturalDates are built at longitude 0 with the same `Seasons` engine the
constructor uses.  The catch block converts any failure into the all-zero
record. -/
def MustachesRange (o : Oracle) (d : NaturalDate) (latitude : ℚ) :
    Except String MustachesRangeResult :=
  if isValidNaturalDate d = false then Except.error "Invalid naturalDate" else
  if isValidLatitude latitude = false then Except.error "Invalid latitude" else
  let currentYear := getUTCFullYear d.unixTime
  match (do
    let winterEv ← NaturalSunEvents o
      (mkNaturalDate o.decSolstice (o.decSolstice currentYear) 0) latitude
    let summerEv ← NaturalSunEvents o
      (mkNaturalDate o.decSolstice (o.junSolstice currentYear) 0) latitude
    let rawAngle : ℚ :=
      if 0 ≤ latitude then
        (winterEv.sunrise - summerEv.sunrise + summerEv.sunset - winterEv.sunset) / 4
      else
        (summerEv.sunrise - winterEv.sunrise + winterEv.sunset - summerEv.sunset) / 4
    pure (MustachesRangeResult.mk winterEv.sunrise winterEv.sunset
      summerEv.sunrise summerEv.sunset (min (max rawAngle 0) 90)) :
      Except String MustachesRangeResult) with
  | Except.ok v => Except.ok v
  | Except.error _ => Except.ok (MustachesRangeResult.mk 0 0 0 0 0)

/-! ### Concrete oracle instances used to witness the theorems -/

/-- A simple concrete December-solstice oracle: Dec 21, 11:00 UTC of each
year. -/
def testSolstice : ℤ → ℤ := fun y => dateUTC y 11 21 11 0 0

/-- A constant solstice oracle, convenient where nonnegativity for all
years is needed. -/
def constSolstice : ℤ → ℤ := fun _ => dateUTC 2024 11 21 11 0 0

/-- A concrete total oracle for witnesses. -/
def testOracle : Oracle :=
  { decSolstice := testSolstice
    junSolstice := fun y => dateUTC y 5 21 5 0 0
    searchRiseSet := fun _ _ _ _ start _ => some (start + 21600000)
    searchAltitude := fun _ _ _ _ start _ _ => some (start + 10800000)
    equator := fun _ _ _ _ => Except.ok (EquatorCoords.mk 0 0)
    horizonAltitude := fun _ _ _ _ _ => Except.ok 10
    moonPhase := fun _ => Except.ok 90
    cosDeg := fun _ => 0 }

/-- An oracle whose equatorial-position evaluation fails. -/
def failingOracle : Oracle :=
  { testOracle with equator := fun _ _ _ _ => Except.error "ephemeris out of range" }

/-- An oracle whose rise-set search returns the search-window start itself,
projecting to exactly 0 degrees. -/
def nadirOracle : Oracle :=
  { testOracle with searchRiseSet := fun _ _ _ _ start _ => some start }

/-! ### Helper lemmas -/

theorem MILLISECONDS_PER_DAY_pos : (0 : ℤ) < MILLISECONDS_PER_DAY := by
  norm_num [MILLISECONDS_PER_DAY]

theorem MSQ_ne_zero : ((MILLISECONDS_PER_DAY : ℤ) : ℚ) ≠ 0 := by
  norm_num [MILLISECONDS_PER_DAY]

theorem jsTrunc_intCast (n : ℤ) : jsTrunc (n : ℚ) = n := by
  unfold jsTrunc
  split <;> simp

theorem jsTrunc_of_nonneg {q : ℚ} (h : 0 ≤ q) : jsTrunc q = ⌊q⌋ := by
  unfold jsTrunc
  rw [if_neg (not_lt.mpr h)]

theorem dateUTC_noon_emod (y m d : ℤ) :
    dateUTC y m d 12 0 0 % MILLISECONDS_PER_DAY = 43200000 := by
  unfold dateUTC MILLISECONDS_PER_DAY
  generalize daysFromCivil y (m + 1) d = k
  omega

theorem dateNormNoon_emod (ts : ℤ) :
    dateNormNoon ts % MILLISECONDS_PER_DAY = 43200000 := by
  unfold dateNormNoon
  exact dateUTC_noon_emod _ _ _

/-- The `time` field is 360 times the fractional part of the elapsed-day
count since the resolved year start. -/
theorem time_eq_fract (solstice : ℤ → ℤ) (t : ℤ) (lon : ℚ) :
    (mkNaturalDate solstice t lon).time =
      360 * Int.fract (timeSinceLocalYearStart solstice t lon) := by
  show ((t : ℚ) -
      (((resolveContext solstice t lon).start +
        ⌊timeSinceLocalYearStart solstice t lon⌋ * MILLISECONDS_PER_DAY : ℤ) : ℚ)) *
      360 / (MILLISECONDS_PER_DAY : ℚ) = _
  rw [← Int.self_sub_floor]
  unfold timeSinceLocalYearStart
  push_cast
  rw [div_sub' _ _ _ MSQ_ne_zero]
  ring

theorem nadir_eq (solstice : ℤ → ℤ) (t : ℤ) (lon : ℚ) :
    (mkNaturalDate solstice t lon).nadir =
      (resolveContext solstice t lon).start +
        ⌊timeSinceLocalYearStart solstice t lon⌋ * MILLISECONDS_PER_DAY := rfl

/-- Concrete evaluation: the nadir of 2025-01-15 06:00 UTC at longitude 0
is 2025-01-15 00:00 UTC. -/
theorem dWitness_nadir : (mkNaturalDate testSolstice 1736920800000 0).nadir = 1736899200000 := by
  norm_num [mkNaturalDate, timeSinceLocalYearStart, resolveContext, calculateYearContext,
    dateNormNoon, dateUTC, daysFromCivil, civilFromDays, getUTCFullYear, getUTCMonth,
    getUTCDate, getUTCHours, jsTrunc, testSolstice, MILLISECONDS_PER_DAY]

/-- Concrete evaluation: 2025-01-15 is the 25th day of the natural year
that started on 2024-12-22 at longitude 0. -/
theorem dWitness_dayOfYear : (mkNaturalDate testSolstice 1736920800000 0).dayOfYear = 25 := by
  norm_num [mkNaturalDate, timeSinceLocalYearStart, resolveContext, calculateYearContext,
    dateNormNoon, dateUTC, daysFromCivil, civilFromDays, getUTCFullYear, getUTCMonth,
    getUTCDate, getUTCHours, jsTrunc, testSolstice, MILLISECONDS_PER_DAY]

/-! ### Claim theorems -/

/-- C1: for every instant the constructor accepts and every longitude in
[-180, 180], the resulting `time` field satisfies 0 ≤ time < 360. -/
theorem c1_time_domain (solstice : ℤ → ℤ) (t : ℤ) (lon : ℚ)
    (_h1 : -180 ≤ lon) (_h2 : lon ≤ 180) :
    0 ≤ (mkNaturalDate solstice t lon).time ∧
      (mkNaturalDate solstice t lon).time < 360 := by
  rw [time_eq_fract]
  refine ⟨mul_nonneg (by norm_num) (Int.fract_nonneg _), ?_⟩
  have h := Int.fract_lt_one (timeSinceLocalYearStart solstice t lon)
  linarith

/-- Witness for C1 at a concrete instant, longitude 0. -/
theorem c1_witness :
    (-180 : ℚ) ≤ 0 ∧ (0 : ℚ) ≤ 180 ∧
      (0 ≤ (mkNaturalDate testSolstice 1736920800000 0).time ∧
        (mkNaturalDate testSolstice 1736920800000 0).time < 360) :=
  ⟨by norm_num, by norm_num,
    c1_time_domain testSolstice 1736920800000 0 (by norm_num) (by norm_num)⟩

/-- C6: `getTimeOfEvent` returns the scaled offset from the nadir exactly
when the event lies within [nadir, nadir + MILLISECONDS_PER_DAY], and the
no-event sentinel otherwise. -/
theorem c6_getTimeOfEvent (d : NaturalDate) (e : ℤ) :
    (d.nadir ≤ e → e ≤ d.nadir + MILLISECONDS_PER_DAY →
      getTimeOfEvent d e =
        some (((e : ℚ) - (d.nadir : ℚ)) * 360 / (MILLISECONDS_PER_DAY : ℚ)))
    ∧ (e < d.nadir ∨ d.nadir + MILLISECONDS_PER_DAY < e →
      getTimeOfEvent d e = none) := by
  constructor
  · intro h1 h2
    unfold getTimeOfEvent
    rw [if_neg (by push_neg; exact ⟨h1, h2⟩)]
    congr 1
    ring
  · intro h
    unfold getTimeOfEvent
    rw [if_pos h]

/-- Witness for C6: a midday event is projected, an event 1 ms before the
nadir gives the sentinel. -/
theorem c6_witness :
    getTimeOfEvent (mkNaturalDate testSolstice 1736920800000 0) 1736942400000 =
      some (((1736942400000 : ℚ) -
        (((mkNaturalDate testSolstice 1736920800000 0).nadir : ℤ) : ℚ)) * 360 /
        (MILLISECONDS_PER_DAY : ℚ))
    ∧ getTimeOfEvent (mkNaturalDate testSolstice 1736920800000 0) 1736899199999 = none :=
  ⟨(c6_getTimeOfEvent _ _).1 (by rw [dWitness_nadir]; norm_num)
      (by rw [dWitness_nadir]; norm_num [MILLISECONDS_PER_DAY]),
    (c6_getTimeOfEvent _ _).2 (Or.inl (by rw [dWitness_nadir]; norm_num))⟩

/-- Arithmetic core of the rainbow-moon relation: for an elapsed-day count
`q` whose floor stays below 366, the 28-day moon index reaches 14 exactly
when the day index passes 364. -/
theorem floor_moon_rainbow (q : ℚ) (h : ⌊q⌋ + 1 ≤ 366) :
    ⌊q / 28⌋ + 1 = 14 ↔ 13 * 28 < ⌊q⌋ + 1 := by
  constructor
  · intro hm
    have h13 : (13 : ℤ) ≤ ⌊q / 28⌋ := by omega
    have hq1 : (13 : ℚ) ≤ q / 28 := by exact_mod_cast Int.le_floor.mp h13
    have hq2 : (364 : ℚ) ≤ q := by
      rw [le_div_iff₀ (by norm_num : (0 : ℚ) < 28)] at hq1
      linarith
    have : (364 : ℤ) ≤ ⌊q⌋ := Int.le_floor.mpr (by exact_mod_cast hq2)
    omega
  · intro hr
    have h364 : (364 : ℤ) ≤ ⌊q⌋ := by omega
    have hq364 : (364 : ℚ) ≤ q := by
      calc (364 : ℚ) ≤ (⌊q⌋ : ℚ) := by exact_mod_cast h364
        _ ≤ q := Int.floor_le q
    have hqlt : q < 366 := by
      calc q < (⌊q⌋ : ℚ) + 1 := Int.lt_floor_add_one q
        _ ≤ 366 := by exact_mod_cast h
    have hlo : (13 : ℤ) ≤ ⌊q / 28⌋ := by
      apply Int.le_floor.mpr
      rw [show (((13 : ℤ) : ℚ)) = 13 by norm_num, le_div_iff₀ (by norm_num : (0 : ℚ) < 28)]
      linarith
    have hhi : ⌊q / 28⌋ < 14 := by
      apply Int.floor_lt.mpr
      rw [show (((14 : ℤ) : ℚ)) = 14 by norm_num, div_lt_iff₀ (by norm_num : (0 : ℚ) < 28)]
      linarith
    omega

/-- C4: `isRainbowDay` holds exactly when `dayOfYear` exceeds 364, and the
moon index is 14 exactly on rainbow days; the hypothesis is the spec-level
field range `dayOfYear ≤ 366`. -/
theorem c4_rainbow (solstice : ℤ → ℤ) (t : ℤ) (lon : ℚ)
    (h : (mkNaturalDate solstice t lon).dayOfYear ≤ 366) :
    ((mkNaturalDate solstice t lon).isRainbowDay = true ↔
      364 < (mkNaturalDate solstice t lon).dayOfYear)
    ∧ ((mkNaturalDate solstice t lon).moon = 14 ↔
      (mkNaturalDate solstice t lon).isRainbowDay = true) := by
  have hdoy : (mkNaturalDate solstice t lon).dayOfYear =
    ⌊timeSinceLocalYearStart solstice t lon⌋ + 1 := rfl
  have hrb : (mkNaturalDate solstice t lon).isRainbowDay =
    decide (13 * 28 < ⌊timeSinceLocalYearStart solstice t lon⌋ + 1) := rfl
  have hmoon : (mkNaturalDate solstice t lon).moon =
    ⌊timeSinceLocalYearStart solstice t lon / 28⌋ + 1 := rfl
  rw [hdoy] at h
  refine ⟨?_, ?_⟩
  · rw [hrb, hdoy, decide_eq_true_iff]
    norm_num
  · rw [hmoon, hrb, decide_eq_true_iff]
    exact floor_moon_rainbow _ h

/-- Witness for C4 at a concrete mid-January instant. -/
theorem c4_witness :
    (mkNaturalDate testSolstice 1736920800000 0).dayOfYear ≤ 366 ∧
      (((mkNaturalDate testSolstice 1736920800000 0).isRainbowDay = true ↔
        364 < (mkNaturalDate testSolstice 1736920800000 0).dayOfYear)
      ∧ ((mkNaturalDate testSolstice 1736920800000 0).moon = 14 ↔
        (mkNaturalDate testSolstice 1736920800000 0).isRainbowDay = true)) :=
  ⟨by rw [dWitness_dayOfYear]; norm_num,
    c4_rainbow testSolstice 1736920800000 0 (by rw [dWitness_dayOfYear]; norm_num)⟩

/-- The start computed by `calculateYearContext` at longitude 180 is the
noon-normalised solstice itself, hence lies at 12:00 UTC of its day. -/
theorem start_emod_180 (solstice : ℤ → ℤ) (y : ℤ) :
    (calculateYearContext solstice y 180).start % MILLISECONDS_PER_DAY = 43200000 := by
  have h : (calculateYearContext solstice y 180).start =
      jsTrunc ((dateNormNoon (solstice y) : ℚ) +
        (-(180 : ℚ) + 180) * (MILLISECONDS_PER_DAY : ℚ) / 360) := rfl
  rw [h, show ((dateNormNoon (solstice y) : ℚ) +
      (-(180 : ℚ) + 180) * (MILLISECONDS_PER_DAY : ℚ) / 360) =
      ((dateNormNoon (solstice y) : ℤ) : ℚ) by ring,
    jsTrunc_intCast, dateNormNoon_emod]

/-- The start computed by `calculateYearContext` at longitude -180 is the
noon-normalised solstice shifted by exactly one day. -/
theorem start_emod_neg180 (solstice : ℤ → ℤ) (y : ℤ) :
    (calculateYearContext solstice y (-180)).start % MILLISECONDS_PER_DAY = 43200000 := by
  have h : (calculateYearContext solstice y (-180)).start =
      jsTrunc ((dateNormNoon (solstice y) : ℚ) +
        (-(-180 : ℚ) + 180) * (MILLISECONDS_PER_DAY : ℚ) / 360) := rfl
  have h2 : ((dateNormNoon (solstice y) : ℚ) +
      (-(-180 : ℚ) + 180) * (MILLISECONDS_PER_DAY : ℚ) / 360) =
      ((dateNormNoon (solstice y) + MILLISECONDS_PER_DAY : ℤ) : ℚ) := by
    push_cast
    ring
  rw [h, h2, jsTrunc_intCast]
  have h3 := dateNormNoon_emod (solstice y)
  unfold MILLISECONDS_PER_DAY at h3 ⊢
  omega

/-- The resolved year start at longitude 180 lies at 12:00 UTC of its day. -/
theorem resolveContext_emod_180 (solstice : ℤ → ℤ) (t : ℤ) :
    (resolveContext solstice t 180).start % MILLISECONDS_PER_DAY = 43200000 := by
  unfold resolveContext
  split
  · exact start_emod_180 _ _
  · exact start_emod_180 _ _

/-- The resolved year start at longitude -180 lies at 12:00 UTC of its day. -/
theorem resolveContext_emod_neg180 (solstice : ℤ → ℤ) (t : ℤ) :
    (resolveContext solstice t (-180)).start % MILLISECONDS_PER_DAY = 43200000 := by
  unfold resolveContext
  split
  · exact start_emod_neg180 _ _
  · exact start_emod_neg180 _ _

/-- Fractional elapsed-day parts agree for two year starts that lie at the
same millisecond offset within their days. -/
theorem fract_div_congr (t ys1 ys2 : ℤ)
    (h : ys1 % MILLISECONDS_PER_DAY = ys2 % MILLISECONDS_PER_DAY) :
    Int.fract (((t : ℚ) - ys1) / (MILLISECONDS_PER_DAY : ℚ)) =
      Int.fract (((t : ℚ) - ys2) / (MILLISECONDS_PER_DAY : ℚ)) := by
  obtain ⟨k, hk⟩ : ∃ k, ys1 = ys2 + MILLISECONDS_PER_DAY * k := by
    refine ⟨(ys1 - ys2) / MILLISECONDS_PER_DAY, ?_⟩
    unfold MILLISECONDS_PER_DAY at h ⊢
    omega
  subst hk
  have h2 : ((t : ℚ) - ((ys2 + MILLISECONDS_PER_DAY * k : ℤ) : ℚ)) /
      (MILLISECONDS_PER_DAY : ℚ) =
      ((t : ℚ) - (ys2 : ℚ)) / (MILLISECONDS_PER_DAY : ℚ) - (k : ℚ) := by
    have hM := MSQ_ne_zero
    push_cast
    field_simp
    ring
  rw [h2, show ((k : ℚ)) = ((k : ℤ) : ℚ) by norm_num, Int.fract_sub_int]

/-- C3: the `time` field at longitude 180 equals the `time` field at
longitude -180 for every instant (exactly, with no rounding tolerance
needed in exact arithmetic). -/
theorem c3_longitude_wraparound (solstice : ℤ → ℤ) (t : ℤ) :
    (mkNaturalDate solstice t 180).time = (mkNaturalDate solstice t (-180)).time := by
  rw [time_eq_fract, time_eq_fract]
  unfold timeSinceLocalYearStart
  rw [fract_div_congr t _ _
    ((resolveContext_emod_180 solstice t).trans (resolveContext_emod_neg180 solstice t).symm)]

/-- C7 counterexample: the claim that every provided longitude that is not
a finite number in [-180, 180] is rejected fails at NaN, which passes the
guard because both comparisons with NaN are false. -/
theorem c7_counterexample :
    ¬ (∀ lng : JSLongitude, lng ≠ JSLongitude.undef →
        (∀ q : ℚ, lng = JSLongitude.num (JSNum.fin q) → q < -180 ∨ 180 < q) →
        longitudeCheckThrows lng = true) := by
  intro h
  have h2 := h (JSLongitude.num JSNum.nan) (by simp) (by simp)
  simp [longitudeCheckThrows, jsNumLt, jsNumGt] at h2

/-- C7 amended: a provided longitude throws exactly when it is a
non-number, an infinity, or a finite number outside [-180, 180]; NaN
passes the guard and is coerced to longitude 0; finite in-range longitudes
are accepted unchanged. -/
theorem c7_amended (solstice : ℤ → ℤ) (t : ℤ) :
    (∀ q : ℚ, q < -180 ∨ 180 < q →
      NaturalDateJS solstice t (JSLongitude.num (JSNum.fin q)) =
        Except.error "Longitude must be between -180 and +180")
    ∧ NaturalDateJS solstice t JSLongitude.nonNumber =
        Except.error "Longitude must be between -180 and +180"
    ∧ NaturalDateJS solstice t (JSLongitude.num JSNum.posInf) =
        Except.error "Longitude must be between -180 and +180"
    ∧ NaturalDateJS solstice t (JSLongitude.num JSNum.negInf) =
        Except.error "Longitude must be between -180 and +180"
    ∧ NaturalDateJS solstice t (JSLongitude.num JSNum.nan) =
        Except.ok (mkNaturalDate solstice t 0)
    ∧ (∀ q : ℚ, -180 ≤ q → q ≤ 180 →
      NaturalDateJS solstice t (JSLongitude.num (JSNum.fin q)) =
        Except.ok (mkNaturalDate solstice t q)) := by
  refine ⟨?_, ?_, ?_, ?_, ?_, ?_⟩
  · intro q hq
    rcases hq with h | h <;>
      simp [NaturalDateJS, longitudeCheckThrows, jsNumLt, jsNumGt, h]
  · simp [NaturalDateJS, longitudeCheckThrows]
  · simp [NaturalDateJS, longitudeCheckThrows, jsNumLt, jsNumGt]
  · simp [NaturalDateJS, longitudeCheckThrows, jsNumLt, jsNumGt]
  · simp [NaturalDateJS, longitudeCheckThrows, jsNumLt, jsNumGt, coerceLongitude]
  · intro q h1 h2
    have hf1 : ¬ (q < -180) := not_lt.mpr h1
    have hf2 : ¬ ((180 : ℚ) < q) := not_lt.mpr h2
    simp [NaturalDateJS, longitudeCheckThrows, jsNumLt, jsNumGt, coerceLongitude, hf1, hf2]

/-- Witness for the amended C7: longitude 181 throws, NaN is coerced to 0,
longitude 0 is accepted. -/
theorem c7_witness :
    NaturalDateJS testSolstice 1736920800000 (JSLongitude.num (JSNum.fin 181)) =
      Except.error "Longitude must be between -180 and +180"
    ∧ NaturalDateJS testSolstice 1736920800000 (JSLongitude.num JSNum.nan) =
      Except.ok (mkNaturalDate testSolstice 1736920800000 0)
    ∧ NaturalDateJS testSolstice 1736920800000 (JSLongitude.num (JSNum.fin 0)) =
      Except.ok (mkNaturalDate testSolstice 1736920800000 0) :=
  ⟨(c7_amended testSolstice 1736920800000).1 181 (Or.inr (by norm_num)),
    (c7_amended testSolstice 1736920800000).2.2.2.2.1,
    (c7_amended testSolstice 1736920800000).2.2.2.2.2 0 (by norm_num) (by norm_num)⟩

/-- Concrete evaluation: the witness NaturalDate passes the structural
validation of the celestial module. -/
theorem dWitness_valid :
    isValidNaturalDate (mkNaturalDate testSolstice 1736920800000 0) = true := by
  norm_num [isValidNaturalDate, isValidTimestamp, isValidLongitude, isValidAngle,
    mkNaturalDate, timeSinceLocalYearStart, resolveContext, calculateYearContext,
    dateNormNoon, dateUTC, daysFromCivil, civilFromDays, getUTCFullYear, getUTCMonth,
    getUTCDate, getUTCHours, jsTrunc, testSolstice, MILLISECONDS_PER_DAY, Int.tmod]

/-- C8 counterexample: with a failing ephemeris, `NaturalMoonPosition`
propagates the error instead of returning the zeroed record the claim
describes. -/
theorem c8_counterexample :
    NaturalMoonPosition failingOracle (mkNaturalDate testSolstice 1736920800000 0) 0 =
      Except.error "ephemeris out of range"
    ∧ NaturalMoonPosition failingOracle (mkNaturalDate testSolstice 1736920800000 0) 0 ≠
      Except.ok (MoonPosition.mk 0 0 0) := by
  have hv := dWitness_valid
  have hmp : NaturalMoonPosition failingOracle (mkNaturalDate testSolstice 1736920800000 0) 0 =
      Except.error "ephemeris out of range" := by
    norm_num [NaturalMoonPosition, hv, isValidLatitude, failingOracle, testOracle,
      Except.bind, bind]
  exact ⟨hmp, by rw [hmp]; simp⟩

/-- C8 amended: when the ephemeris fails during the moon position
computation (here at the equatorial-position call), `NaturalMoonPosition`
propagates that very error to the caller. -/
theorem c8_amended (o : Oracle) (d : NaturalDate) (lat : ℚ) (e : String)
    (hd : isValidNaturalDate d = true) (hlat : isValidLatitude lat = true)
    (he : o.equator Body.moon d.unixTime lat d.longitude = Except.error e) :
    NaturalMoonPosition o d lat = Except.error e := by
  unfold NaturalMoonPosition
  rw [hd, hlat]
  simp [he, Except.bind, bind]

/-- Witness for the amended C8 at a failing oracle and a valid date. -/
theorem c8_witness :
    NaturalMoonPosition failingOracle (mkNaturalDate testSolstice 1736920800000 0) 45 =
      Except.error "ephemeris out of range" :=
  c8_amended failingOracle (mkNaturalDate testSolstice 1736920800000 0) 45
    "ephemeris out of range" dWitness_valid (by norm_num [isValidLatitude]) rfl

/-- C10: a sun event whose projection is exactly 0 degrees (the event is
the nadir itself) is falsy like the out-of-range sentinel, so the legacy
`NaturalSunEvents` replaces it by the seasonal fallback: outside summer the
reported sunrise is 180 degrees, not 0. -/
theorem c10_falsy_zero (o : Oracle) (d : NaturalDate) (lat : ℚ)
    (hlat : 0 < lat) (hday : d.dayOfYear < 91)
    (hev : o.searchRiseSet Body.sun lat d.longitude 1 d.nadir 1 = some d.nadir) :
    getTimeOfEvent d d.nadir = some 0 ∧ (NaturalSunEventsJs o d lat).sunrise = 180 := by
  have hMS := MILLISECONDS_PER_DAY_pos
  have hproj : getTimeOfEvent d d.nadir = some 0 := by
    unfold getTimeOfEvent
    rw [if_neg (by push_neg; omega)]
    simp
  refine ⟨hproj, ?_⟩
  have h1 : ¬ ((91 : ℤ) ≤ d.dayOfYear) := by omega
  have h2 : ¬ (lat ≤ 0) := not_le.mpr hlat
  simp [NaturalSunEventsJs, hev, hproj, withFallback, h1, h2]

/-- Witness for C10: an oracle returning the nadir as the sunrise instant,
in January at latitude 45. -/
theorem c10_witness :
    getTimeOfEvent (mkNaturalDate testSolstice 1736920800000 0)
      ((mkNaturalDate testSolstice 1736920800000 0).nadir) = some 0
    ∧ (NaturalSunEventsJs nadirOracle (mkNaturalDate testSolstice 1736920800000 0) 45).sunrise
      = 180 :=
  c10_falsy_zero nadirOracle (mkNaturalDate testSolstice 1736920800000 0) 45
    (by norm_num) (by rw [dWitness_dayOfYear]; norm_num) rfl

/-- Concrete evaluation: a second valid NaturalDate in the same Gregorian
year (2025-04-30 08:00 UTC at longitude 10). -/
theorem dWitness2_valid :
    isValidNaturalDate (mkNaturalDate testSolstice 1746000000000 10) = true := by
  norm_num [isValidNaturalDate, isValidTimestamp, isValidLongitude, isValidAngle,
    mkNaturalDate, timeSinceLocalYearStart, resolveContext, calculateYearContext,
    dateNormNoon, dateUTC, daysFromCivil, civilFromDays, getUTCFullYear, getUTCMonth,
    getUTCDate, getUTCHours, jsTrunc, testSolstice, MILLISECONDS_PER_DAY, Int.tmod]

/-- C9: `MustachesRange` depends only on the Gregorian year of the given
date and on the latitude; the cache key is exactly that pair, so two valid
dates in the same Gregorian year give identical results and keys whatever
their longitudes. -/
theorem c9_mustaches_year_latitude (o : Oracle) (d1 d2 : NaturalDate) (lat : ℚ)
    (hv1 : isValidNaturalDate d1 = true) (hv2 : isValidNaturalDate d2 = true)
    (hy : getUTCFullYear d1.unixTime = getUTCFullYear d2.unixTime) :
    MustachesRange o d1 lat = MustachesRange o d2 lat
    ∧ mustachesCacheKey d1 lat = mustachesCacheKey d2 lat := by
  constructor
  · unfold MustachesRange
    rw [hv1, hv2, hy]
  · unfold mustachesCacheKey
    rw [hy]

/-- Witness for C9: 2025-01-15 at longitude 0 and 2025-04-30 at longitude
10 share their mustaches result and cache key at latitude 45. -/
theorem c9_witness :
    MustachesRange testOracle (mkNaturalDate testSolstice 1736920800000 0) 45 =
      MustachesRange testOracle (mkNaturalDate testSolstice 1746000000000 10) 45
    ∧ mustachesCacheKey (mkNaturalDate testSolstice 1736920800000 0) 45 =
      mustachesCacheKey (mkNaturalDate testSolstice 1746000000000 10) 45 :=
  c9_mustaches_year_latitude testOracle _ _ 45 dWitness_valid dWitness2_valid
    (by norm_num [mkNaturalDate, getUTCFullYear, civilFromDays, MILLISECONDS_PER_DAY])

/-- The longitude shift added to the noon-normalised solstice is
nonnegative whenever the longitude does not exceed 180. -/
theorem lonShift_nonneg {lon : ℚ} (hlon : lon ≤ 180) :
    (0 : ℚ) ≤ (-lon + 180) * (MILLISECONDS_PER_DAY : ℚ) / 360 := by
  apply div_nonneg _ (by norm_num)
  apply mul_nonneg (by linarith)
  norm_num [MILLISECONDS_PER_DAY]

/-- With a nonnegative noon-normalised solstice, the `parseInt` truncation
in `calculateYearContext` is a floor, and the start decomposes as the
solstice noon plus the floored longitude shift. -/
theorem calculateYearContext_start_eq (solstice : ℤ → ℤ) (y : ℤ) (lon : ℚ)
    (hN : 0 ≤ dateNormNoon (solstice y)) (hlon : lon ≤ 180) :
    (calculateYearContext solstice y lon).start =
      dateNormNoon (solstice y) + ⌊(-lon + 180) * (MILLISECONDS_PER_DAY : ℚ) / 360⌋ := by
  have hN2 : (0 : ℚ) ≤ (dateNormNoon (solstice y) : ℚ) := by exact_mod_cast hN
  have harg : (0 : ℚ) ≤ (dateNormNoon (solstice y) : ℚ) +
      (-lon + 180) * (MILLISECONDS_PER_DAY : ℚ) / 360 := by
    have := lonShift_nonneg hlon
    linarith
  show jsTrunc ((dateNormNoon (solstice y) : ℚ) +
      (-lon + 180) * (MILLISECONDS_PER_DAY : ℚ) / 360) = _
  rw [jsTrunc_of_nonneg harg, Int.floor_int_add]

/-- Every year-context start for a fixed longitude lies at the same
millisecond offset within its day. -/
theorem calculateYearContext_start_emod (solstice : ℤ → ℤ) (y : ℤ) (lon : ℚ)
    (hN : 0 ≤ dateNormNoon (solstice y)) (hlon : lon ≤ 180) :
    (calculateYearContext solstice y lon).start % MILLISECONDS_PER_DAY =
      (43200000 + ⌊(-lon + 180) * (MILLISECONDS_PER_DAY : ℚ) / 360⌋) %
        MILLISECONDS_PER_DAY := by
  rw [calculateYearContext_start_eq solstice y lon hN hlon]
  have h1 := dateNormNoon_emod (solstice y)
  unfold MILLISECONDS_PER_DAY at h1 ⊢
  omega

/-- The resolved year start for a fixed longitude lies at the same
millisecond offset within its day, whichever Gregorian year the
resolve-then-correct step settles on. -/
theorem resolveContext_start_emod (solstice : ℤ → ℤ) (t : ℤ) (lon : ℚ)
    (h0 : ∀ y, 0 ≤ dateNormNoon (solstice y)) (hlon : lon ≤ 180) :
    (resolveContext solstice t lon).start % MILLISECONDS_PER_DAY =
      (43200000 + ⌊(-lon + 180) * (MILLISECONDS_PER_DAY : ℚ) / 360⌋) %
        MILLISECONDS_PER_DAY := by
  unfold resolveContext
  split
  · exact calculateYearContext_start_emod _ _ _ (h0 _) hlon
  · exact calculateYearContext_start_emod _ _ _ (h0 _) hlon

/-- The nadir computed from any year start depends only on that start's
offset within the day: it is the last instant at that offset not after the
query instant. -/
theorem nadir_shift (t ys ρ : ℤ)
    (h : ys % MILLISECONDS_PER_DAY = ρ % MILLISECONDS_PER_DAY) :
    ys + ⌊((t : ℚ) - (ys : ℚ)) / (MILLISECONDS_PER_DAY : ℚ)⌋ * MILLISECONDS_PER_DAY =
      ρ + ⌊((t : ℚ) - (ρ : ℚ)) / (MILLISECONDS_PER_DAY : ℚ)⌋ * MILLISECONDS_PER_DAY := by
  obtain ⟨k, hk⟩ : ∃ k, ys = ρ + MILLISECONDS_PER_DAY * k := by
    refine ⟨(ys - ρ) / MILLISECONDS_PER_DAY, ?_⟩
    unfold MILLISECONDS_PER_DAY at h ⊢
    omega
  subst hk
  have h2 : ((t : ℚ) - ((ρ + MILLISECONDS_PER_DAY * k : ℤ) : ℚ)) /
      (MILLISECONDS_PER_DAY : ℚ) =
      ((t : ℚ) - (ρ : ℚ)) / (MILLISECONDS_PER_DAY : ℚ) - (k : ℚ) := by
    have hM := MSQ_ne_zero
    push_cast
    field_simp
    ring
  rw [h2, show ((k : ℚ)) = ((k : ℤ) : ℚ) by norm_num, Int.floor_sub_int]
  ring

/-- C5: for a fixed longitude and an oracle whose noon-normalised solstices
are nonnegative timestamps, the `nadir` field is monotone in the instant,
across natural-year boundaries included. -/
theorem c5_nadir_monotone (solstice : ℤ → ℤ) (lon : ℚ) (t1 t2 : ℤ)
    (h0 : ∀ y, 0 ≤ dateNormNoon (solstice y))
    (_hlon1 : -180 ≤ lon) (hlon2 : lon ≤ 180) (h12 : t1 ≤ t2) :
    (mkNaturalDate solstice t1 lon).nadir ≤ (mkNaturalDate solstice t2 lon).nadir := by
  have e1 : (mkNaturalDate solstice t1 lon).nadir =
      (43200000 + ⌊(-lon + 180) * (MILLISECONDS_PER_DAY : ℚ) / 360⌋) +
      ⌊((t1 : ℚ) - ((43200000 + ⌊(-lon + 180) * (MILLISECONDS_PER_DAY : ℚ) / 360⌋ : ℤ) : ℚ)) /
        (MILLISECONDS_PER_DAY : ℚ)⌋ * MILLISECONDS_PER_DAY := by
    rw [nadir_eq]
    unfold timeSinceLocalYearStart
    exact nadir_shift t1 _ _ (resolveContext_start_emod solstice t1 lon h0 hlon2)
  have e2 : (mkNaturalDate solstice t2 lon).nadir =
      (43200000 + ⌊(-lon + 180) * (MILLISECONDS_PER_DAY : ℚ) / 360⌋) +
      ⌊((t2 : ℚ) - ((43200000 + ⌊(-lon + 180) * (MILLISECONDS_PER_DAY : ℚ) / 360⌋ : ℤ) : ℚ)) /
        (MILLISECONDS_PER_DAY : ℚ)⌋ * MILLISECONDS_PER_DAY := by
    rw [nadir_eq]
    unfold timeSinceLocalYearStart
    exact nadir_shift t2 _ _ (resolveContext_start_emod solstice t2 lon h0 hlon2)
  rw [e1, e2]
  have hfl : ⌊((t1 : ℚ) - ((43200000 + ⌊(-lon + 180) * (MILLISECONDS_PER_DAY : ℚ) / 360⌋ : ℤ) : ℚ)) /
        (MILLISECONDS_PER_DAY : ℚ)⌋ ≤
      ⌊((t2 : ℚ) - ((43200000 + ⌊(-lon + 180) * (MILLISECONDS_PER_DAY : ℚ) / 360⌋ : ℤ) : ℚ)) /
        (MILLISECONDS_PER_DAY : ℚ)⌋ := by
    apply Int.floor_le_floor
    apply div_le_div_of_nonneg_right ?_ (by norm_num [MILLISECONDS_PER_DAY])
    have : (t1 : ℚ) ≤ (t2 : ℚ) := by exact_mod_cast h12
    linarith
  have := mul_le_mul_of_nonneg_right hfl MILLISECONDS_PER_DAY_pos.le
  omega

/-- The nonnegativity hypothesis of C5 for the constant test oracle. -/
theorem constSolstice_normNoon_nonneg : ∀ y : ℤ, 0 ≤ dateNormNoon (constSolstice y) := by
  intro y
  norm_num [constSolstice, dateNormNoon, dateUTC, daysFromCivil, civilFromDays,
    getUTCFullYear, getUTCMonth, getUTCDate, getUTCHours, MILLISECONDS_PER_DAY]

/-- Witness for C5 at two concrete instants. -/
theorem c5_witness :
    (∀ y : ℤ, 0 ≤ dateNormNoon (constSolstice y)) ∧ ((-180 : ℚ) ≤ 0) ∧ ((0 : ℚ) ≤ 180) ∧
    (1736920800000 : ℤ) ≤ 1746000000000 ∧
    (mkNaturalDate constSolstice 1736920800000 0).nadir ≤
      (mkNaturalDate constSolstice 1746000000000 0).nadir :=
  ⟨constSolstice_normNoon_nonneg, by norm_num, by norm_num, by norm_num,
    c5_nadir_monotone constSolstice 0 1736920800000 1746000000000
      constSolstice_normNoon_nonneg (by norm_num) (by norm_num) (by norm_num)⟩

/-- The duration of a year context, scaled back to milliseconds, is the
distance between the two noon-normalised solstices. -/
theorem calculateYearContext_duration_mul (solstice : ℤ → ℤ) (y : ℤ) (lon : ℚ) :
    (calculateYearContext solstice y lon).duration * (MILLISECONDS_PER_DAY : ℚ) =
      (dateNormNoon (solstice (y + 1)) : ℚ) - (dateNormNoon (solstice y) : ℚ) := by
  show ((dateNormNoon (solstice (y + 1)) : ℚ) - (dateNormNoon (solstice y) : ℚ)) /
      (MILLISECONDS_PER_DAY : ℚ) * (MILLISECONDS_PER_DAY : ℚ) = _
  rw [div_mul_cancel₀ _ MSQ_ne_zero]

/-- C2: for a fixed longitude, the instant equal to a computed natural-year
start already belongs to the new year (its `yearStart` is that instant),
and the instant one millisecond earlier belongs to the previous year.  The
hypotheses say the oracle solstices are nonnegative timestamps and that the
computed starts lie in their expected Gregorian years. -/
theorem c2_year_transition (solstice : ℤ → ℤ) (lon : ℚ) (y : ℤ)
    (hlon : lon ≤ 180)
    (hN1 : 0 ≤ dateNormNoon (solstice (y - 1)))
    (hN2 : 0 ≤ dateNormNoon (solstice y))
    (hY2 : getUTCFullYear ((calculateYearContext solstice y lon).start) = y)
    (hY1 : getUTCFullYear ((calculateYearContext solstice (y - 1) lon).start) = y - 1)
    (hY3 : getUTCFullYear ((calculateYearContext solstice y lon).start - 1) = y) :
    (mkNaturalDate solstice ((calculateYearContext solstice y lon).start) lon).yearStart =
      (calculateYearContext solstice y lon).start
    ∧ (mkNaturalDate solstice ((calculateYearContext solstice y lon).start - 1) lon).year =
      (mkNaturalDate solstice ((calculateYearContext solstice y lon).start) lon).year - 1 := by
  have hS : (calculateYearContext solstice y lon).start =
      dateNormNoon (solstice y) + ⌊(-lon + 180) * (MILLISECONDS_PER_DAY : ℚ) / 360⌋ :=
    calculateYearContext_start_eq solstice y lon hN2 hlon
  have hS1 : (calculateYearContext solstice (y - 1) lon).start =
      dateNormNoon (solstice (y - 1)) + ⌊(-lon + 180) * (MILLISECONDS_PER_DAY : ℚ) / 360⌋ :=
    calculateYearContext_start_eq solstice (y - 1) lon hN1 hlon
  have hres1 : resolveContext solstice ((calculateYearContext solstice y lon).start) lon =
      calculateYearContext solstice y lon := by
    unfold resolveContext
    rw [hY2, if_pos]
    rw [calculateYearContext_duration_mul, hS1, hS,
      show y - 1 + 1 = y from by ring]
    push_cast
    linarith
  have hres2 : resolveContext solstice ((calculateYearContext solstice y lon).start - 1) lon =
      calculateYearContext solstice (y - 1) lon := by
    unfold resolveContext
    rw [hY3, if_neg]
    rw [calculateYearContext_duration_mul, hS1,
      show y - 1 + 1 = y from by ring]
    push_cast [hS]
    intro hcon
    linarith
  constructor
  · show (resolveContext solstice ((calculateYearContext solstice y lon).start) lon).start = _
    rw [hres1]
  · show getUTCFullYear (resolveContext solstice
        ((calculateYearContext solstice y lon).start - 1) lon).start -
        getUTCFullYear END_OF_ARTIFICIAL_TIME + 1 =
      getUTCFullYear (resolveContext solstice
        ((calculateYearContext solstice y lon).start) lon).start -
        getUTCFullYear END_OF_ARTIFICIAL_TIME + 1 - 1
    rw [hres1, hres2, hY1, hY2]
    ring

/-- Witness for C2 with the test oracle in Gregorian year 2024 at
longitude 0. -/
theorem c2_witness :
    (mkNaturalDate testSolstice ((calculateYearContext testSolstice 2024 0).start) 0).yearStart =
      (calculateYearContext testSolstice 2024 0).start
    ∧ (mkNaturalDate testSolstice ((calculateYearContext testSolstice 2024 0).start - 1) 0).year =
      (mkNaturalDate testSolstice ((calculateYearContext testSolstice 2024 0).start) 0).year - 1 :=
  c2_year_transition testSolstice 0 2024 (by norm_num)
    (by norm_num [testSolstice, dateNormNoon, dateUTC, daysFromCivil, civilFromDays,
      getUTCFullYear, getUTCMonth, getUTCDate, getUTCHours, MILLISECONDS_PER_DAY])
    (by norm_num [testSolstice, dateNormNoon, dateUTC, daysFromCivil, civilFromDays,
      getUTCFullYear, getUTCMonth, getUTCDate, getUTCHours, MILLISECONDS_PER_DAY])
    (by norm_num [calculateYearContext, jsTrunc, testSolstice, dateNormNoon, dateUTC,
      daysFromCivil, civilFromDays, getUTCFullYear, getUTCMonth, getUTCDate, getUTCHours,
      MILLISECONDS_PER_DAY])
    (by norm_num [calculateYearContext, jsTrunc, testSolstice, dateNormNoon, dateUTC,
      daysFromCivil, civilFromDays, getUTCFullYear, getUTCMonth, getUTCDate, getUTCHours,
      MILLISECONDS_PER_DAY])
    (by norm_num [calculateYearContext, jsTrunc, testSolstice, dateNormNoon, dateUTC,
      daysFromCivil, civilFromDays, getUTCFullYear, getUTCMonth, getUTCDate, getUTCHours,
      MILLISECONDS_PER_DAY])

end NaturalTime
